import Mathlib

/-!
Verification of the NeuroFlow persistence layer (src/io/mod.rs).

The module offers four operations:
  save    : runs the before hook, bincode-encodes the model, writes the bytes;
  load    : reads the bytes, bincode-decodes the model, runs the after hook;
  to_json : renders any serde-serializable value to a JSON string;
  from_json : a stub with an empty body and unit return type.

The embedding models the filesystem as a map from path to optional file
contents, the fallible I/O steps of save (File::create, write_all) through an
explicit fault environment, and observable hook/encode/write/decode steps
through an event trace.
-/

namespace NeuroFlow

/-- Modelled from the spec: the tagged error value (the Rust enum ErrorKind is
declared in lib.rs, which is not under src/; its three variants and the fact
that each wraps an underlying cause are visible from the map_err calls in
src/io/mod.rs). The variants correspond to I/O failure, structural-encoding
failure and text-encoding failure; the wrapped cause is modelled as a string. -/
inductive ErrorKind where
  | io : String → ErrorKind
  | encoding : String → ErrorKind
  | json : String → ErrorKind
deriving DecidableEq, Repr

/-- Modelled from the spec: the Transform trait (declared in lib.rs, not under
src/): the two lifecycle hooks before and after, plus structural encodability,
here the bincode serialize/deserialize pair as fallible functions between the
model type and byte lists (bytes modelled as naturals). -/
structure Transform (α : Type) where
  before : α → α
  after : α → α
  encode : α → Except String (List Nat)
  decode : List Nat → Except String α

/-- The filesystem: a map from path to file contents; none means absent. -/
def FS : Type := String → Option (List Nat)

/-- The empty filesystem. -/
def FS.emptyFS : FS := fun _ => none

/-- Writing contents v at path p (File::create followed by writes). -/
def FS.setFile (fs : FS) (p : String) (v : List Nat) : FS :=
  fun q => if q = p then some v else fs q

/-- Injected outcomes of the two fallible I/O steps of save: createErr is the
error cause when File::create fails (none means it succeeds) and writeErr is
the error cause together with the number of bytes already written when
write_all fails (none means the write succeeds in full). -/
structure SaveEnv where
  createErr : Option String
  writeErr : Option (String × Nat)
deriving DecidableEq, Repr

/-- The fault-free environment: create and write both succeed. -/
def SaveEnv.noFault : SaveEnv := ⟨none, none⟩

/-- Observable steps of a save or load call, in execution order. -/
inductive Event where
  | beforeHook : Event
  | encodeStep : Event
  | writeBytes : List Nat → Event
  | decodeStep : Event
  | afterHook : Event
deriving DecidableEq, Repr

/-- The outcome of one save call: the returned Result, the filesystem after
the call, the caller's model after the call (save takes it by mutable
reference) and the trace of observable steps. -/
structure SaveOut (α : Type) where
  result : Except ErrorKind Unit
  fs : FS
  model : α
  trace : List Event

/-- Shallow embedding of io::save (src/io/mod.rs lines 52-61):
File::create the destination (truncating it to empty on success, returning an
I/O error on failure), run the before hook on the model, bincode-serialize the
model (an encoding error on failure), write_all the buffer (an I/O error on
failure, with a possibly partial prefix on disk). -/
def save {α : Type} (t : Transform α) (obj : α) (file_path : String)
    (env : SaveEnv) (fs : FS) : SaveOut α :=
  match env.createErr with
  | some e => ⟨.error (.io e), fs, obj, []⟩
  | none =>
    let fs1 := fs.setFile file_path []
    let obj1 := t.before obj
    match t.encode obj1 with
    | .error e => ⟨.error (.encoding e), fs1, obj1, [.beforeHook, .encodeStep]⟩
    | .ok encoded =>
      match env.writeErr with
      | some en =>
        ⟨.error (.io en.1), fs1.setFile file_path (encoded.take en.2), obj1,
          [.beforeHook, .encodeStep, .writeBytes (encoded.take en.2)]⟩
      | none =>
        ⟨.ok (), fs1.setFile file_path encoded, obj1,
          [.beforeHook, .encodeStep, .writeBytes encoded]⟩

/-- The outcome of one load call: the returned Result and the trace of
observable steps (load does not modify the filesystem). -/
structure LoadOut (α : Type) where
  result : Except ErrorKind α
  trace : List Event

/-- Shallow embedding of io::load (src/io/mod.rs lines 78-85):
File::open the source (an I/O error when the file is absent),
bincode-deserialize a value of the requested type (an encoding error on
failure), run the after hook on it and return it. -/
def load {α : Type} (t : Transform α) (file_path : String) (fs : FS) :
    LoadOut α :=
  match fs file_path with
  | none => ⟨.error (.io "NotFound"), []⟩
  | some bytes =>
    match t.decode bytes with
    | .error e => ⟨.error (.encoding e), [.decodeStep]⟩
    | .ok nn => ⟨.ok (t.after nn), [.decodeStep, .afterHook]⟩

/-- The serde Serialize bound of to_json: a fallible rendering of the value to
a JSON text string (serde_json::to_string). -/
structure Serializable (α : Type) where
  toJson : α → Except String String

/-- Shallow embedding of io::to_json (src/io/mod.rs lines 89-91): render the
value with serde_json::to_string and tag any failure as a Json error. -/
def to_json {α : Type} (s : Serializable α) (obj : α) : Except ErrorKind String :=
  match s.toJson obj with
  | .ok j => .ok j
  | .error e => .error (.json e)

/-- Shallow embedding of io::from_json (src/io/mod.rs lines 94-96): the body
is empty and the return type is the unit type. -/
def from_json (_s : String) : Unit := ()

/-- A concrete transformable model on Nat used as a test vehicle: before adds
one (an observable mutation), after adds two, and the codec is the lossless
one-byte encoding. -/
def natT : Transform Nat where
  before := fun n => n + 1
  after := fun n => n + 2
  encode := fun n => .ok [n]
  decode := fun l =>
    match l with
    | [n] => .ok n
    | _ => .error "unexpected length"

/-- A concrete transformable model on Nat whose encoding always fails, used to
exercise the encoding-failure paths. -/
def badEncodeT : Transform Nat where
  before := fun n => n + 1
  after := fun n => n
  encode := fun _ => .error "cannot encode"
  decode := fun _ => .error "cannot decode"

/-- A serializer on Nat that always succeeds. -/
def okSer : Serializable Nat := ⟨fun n => .ok (toString n)⟩

/-- A serializer on Nat that always fails, used to exercise the
text-encoding-failure path. -/
def badSer : Serializable Nat := ⟨fun _ => .error "render failure"⟩

/-- C5: when opening/creating the destination fails, save returns an I/O
error wrapping the cause, the model is left unmutated (the before hook did
not run), the filesystem is unchanged and no observable step happened. -/
theorem save_create_failure_frame {α : Type} (t : Transform α) (obj : α)
    (p : String) (fs : FS) (e : String) (wr : Option (String × Nat)) :
    (save t obj p ⟨some e, wr⟩ fs).result = .error (.io e) ∧
    (save t obj p ⟨some e, wr⟩ fs).model = obj ∧
    (save t obj p ⟨some e, wr⟩ fs).fs = fs ∧
    (save t obj p ⟨some e, wr⟩ fs).trace = [] :=
  ⟨rfl, rfl, rfl, rfl⟩

/-- C1: a successful save of m to a path followed by a load of the same type
from that path (over the filesystem the save produced) returns exactly the
after-image of the before-image of m — structurally equal to the saved value
on everything not recomputed by the hooks — provided the structural codec is
lossless, as the Transform contract requires. -/
theorem save_load_roundtrip {α : Type} (t : Transform α) (m : α)
    (p : String) (env : SaveEnv) (fs : FS)
    (hcodec : ∀ a bs, t.encode a = .ok bs → t.decode bs = .ok a)
    (hok : (save t m p env fs).result = .ok ()) :
    (load t p (save t m p env fs).fs).result = .ok (t.after (t.before m)) := by
  cases hc : env.createErr with
  | some e => simp [save, hc] at hok
  | none =>
    cases he : t.encode (t.before m) with
    | error e => simp [save, hc, he] at hok
    | ok bs =>
      cases hw : env.writeErr with
      | some en => simp [save, hc, he, hw] at hok
      | none =>
        have hd := hcodec _ _ he
        simp [save, hc, he, hw, load, FS.setFile, hd]

/-- Witness for C1 at the concrete model natT, value 5, fault-free
environment and empty filesystem. -/
theorem save_load_roundtrip_witness :
    (load natT "w.flow" (save natT 5 "w.flow" SaveEnv.noFault FS.emptyFS).fs).result
      = .ok (natT.after (natT.before 5)) :=
  save_load_roundtrip natT 5 "w.flow" SaveEnv.noFault FS.emptyFS
    (fun a bs h => by
      injection h with h2
      subst h2
      rfl)
    rfl

/-- C2 counterexample: the claim says the before hook runs exactly once in
EVERY invocation of save, but in an invocation in which File::create fails
the function returns early and the before hook runs zero times. -/
theorem save_before_hook_can_miss :
    ¬ ((save natT 5 "p.flow" ⟨some "denied", none⟩ FS.emptyFS).trace.count
        Event.beforeHook = 1) := by decide

/-- C2 amended: in every invocation of save in which opening/creating the
destination succeeds, the before hook is invoked exactly once, strictly prior
to encoding and hence prior to any byte being written; in every invocation of
load that returns a value, the after hook is invoked exactly once, strictly
after decoding completes, and the returned value is the after-image of the
decoded value, so the hook ran before the value was returned. -/
theorem hook_ordering {α : Type} (t : Transform α) :
    (∀ (obj : α) (p : String) (env : SaveEnv) (fs : FS), env.createErr = none →
       ∃ rest, (save t obj p env fs).trace
           = Event.beforeHook :: Event.encodeStep :: rest ∧
         Event.beforeHook ∉ rest ∧
         ∀ e ∈ rest, ∃ bs, e = Event.writeBytes bs) ∧
    (∀ (p : String) (fs : FS) (v : α), (load t p fs).result = Except.ok v →
       (load t p fs).trace = [Event.decodeStep, Event.afterHook] ∧
       ∃ m bytes, fs p = some bytes ∧ t.decode bytes = Except.ok m ∧
         v = t.after m) := by
  constructor
  · intro obj p env fs hc
    cases he : t.encode (t.before obj) with
    | error e =>
      refine ⟨[], ?_, ?_, ?_⟩ <;> simp [save, hc, he]
    | ok bs =>
      cases hw : env.writeErr with
      | some en =>
        refine ⟨[Event.writeBytes (bs.take en.2)], ?_, ?_, ?_⟩ <;>
          simp [save, hc, he, hw]
      | none =>
        refine ⟨[Event.writeBytes bs], ?_, ?_, ?_⟩ <;> simp [save, hc, he, hw]
  · intro p fs v hv
    cases hf : fs p with
    | none => simp [load, hf] at hv
    | some bytes =>
      cases hd : t.decode bytes with
      | error e => simp [load, hf, hd] at hv
      | ok m =>
        simp [load, hf, hd] at hv
        exact ⟨by simp [load, hf, hd], m, bytes, rfl, hd, hv.symm⟩

/-- Witness for the amended C2: a fault-free save of 5 and a load from a
one-byte file, at the concrete model natT. -/
theorem hook_ordering_witness :
    (∃ rest, (save natT 5 "p.flow" SaveEnv.noFault FS.emptyFS).trace
        = Event.beforeHook :: Event.encodeStep :: rest ∧
      Event.beforeHook ∉ rest ∧
      ∀ e ∈ rest, ∃ bs, e = Event.writeBytes bs) ∧
    ((load natT "q.flow" (FS.emptyFS.setFile "q.flow" [7])).trace
        = [Event.decodeStep, Event.afterHook] ∧
      ∃ m bytes, (FS.emptyFS.setFile "q.flow" [7]) "q.flow" = some bytes ∧
        natT.decode bytes = Except.ok m ∧ (9 : Nat) = natT.after m) :=
  ⟨(hook_ordering natT).1 5 "p.flow" SaveEnv.noFault FS.emptyFS rfl,
   (hook_ordering natT).2 "q.flow" (FS.emptyFS.setFile "q.flow" [7]) 9 rfl⟩

/-- C3: when save fails with an encoding error, the destination file exists
but is empty (exactly the state File::create produced) and no write step ever
happened, so no bytes were written. -/
theorem save_encoding_failure_writes_nothing {α : Type} (t : Transform α)
    (obj : α) (p : String) (env : SaveEnv) (fs : FS) (e : String)
    (h : (save t obj p env fs).result = .error (.encoding e)) :
    (save t obj p env fs).fs p = some [] ∧
    ∀ bs, Event.writeBytes bs ∉ (save t obj p env fs).trace := by
  cases hc : env.createErr with
  | some c => simp [save, hc] at h
  | none =>
    cases he : t.encode (t.before obj) with
    | error c =>
      constructor
      · simp [save, hc, he, FS.setFile]
      · intro bs
        simp [save, hc, he]
    | ok bytes =>
      cases hw : env.writeErr with
      | some en => simp [save, hc, he, hw] at h
      | none => simp [save, hc, he, hw] at h

/-- Witness for C3 at the concrete model badEncodeT, whose encoding always
fails. -/
theorem save_encoding_failure_writes_nothing_witness :
    (save badEncodeT 3 "p.flow" SaveEnv.noFault FS.emptyFS).fs "p.flow" = some [] ∧
    ∀ bs, Event.writeBytes bs
      ∉ (save badEncodeT 3 "p.flow" SaveEnv.noFault FS.emptyFS).trace :=
  save_encoding_failure_writes_nothing badEncodeT 3 "p.flow" SaveEnv.noFault
    FS.emptyFS "cannot encode" rfl

/-- C4: every failure is returned as a tagged error discriminating the
failing stage and wrapping the underlying cause: loading an absent source
gives an io-tagged error (not encoding); a decode failure on incompatible
bytes gives an encoding-tagged error wrapping the decoder cause; a text
rendering failure gives a json-tagged error wrapping the renderer cause; an
encoding failure in save gives an encoding-tagged error; a create failure in
save gives an io-tagged error wrapping the cause. -/
theorem error_discrimination {α : Type} (t : Transform α) (s : Serializable α) :
    (∀ (p : String) (fs : FS), fs p = none →
       ∃ c, (load t p fs).result = .error (.io c)) ∧
    (∀ (p : String) (fs : FS) (bytes : List Nat) (ce : String),
       fs p = some bytes → t.decode bytes = .error ce →
       (load t p fs).result = .error (.encoding ce)) ∧
    (∀ (v : α) (je : String), s.toJson v = .error je →
       to_json s v = .error (.json je)) ∧
    (∀ (obj : α) (p : String) (env : SaveEnv) (fs : FS) (ce : String),
       env.createErr = none → t.encode (t.before obj) = .error ce →
       (save t obj p env fs).result = .error (.encoding ce)) ∧
    (∀ (obj : α) (p : String) (env : SaveEnv) (fs : FS) (c : String),
       env.createErr = some c →
       (save t obj p env fs).result = .error (.io c)) := by
  refine ⟨?_, ?_, ?_, ?_, ?_⟩
  · intro p fs hf
    exact ⟨"NotFound", by simp [load, hf]⟩
  · intro p fs bytes ce hf hd
    simp [load, hf, hd]
  · intro v je hj
    simp [to_json, hj]
  · intro obj p env fs ce hc he
    simp [save, hc, he]
  · intro obj p env fs c hc
    simp [save, hc]

/-- Witness for C4: concrete instances of all five discrimination cases. -/
theorem error_discrimination_witness :
    (∃ c, (load natT "absent.flow" FS.emptyFS).result = .error (.io c)) ∧
    (load natT "b.flow" (FS.emptyFS.setFile "b.flow" [1, 2])).result
      = .error (.encoding "unexpected length") ∧
    to_json badSer 0 = .error (.json "render failure") ∧
    (save badEncodeT 4 "c.flow" SaveEnv.noFault FS.emptyFS).result
      = .error (.encoding "cannot encode") ∧
    (save natT 4 "d.flow" ⟨some "denied", none⟩ FS.emptyFS).result
      = .error (.io "denied") :=
  ⟨(error_discrimination natT badSer).1 "absent.flow" FS.emptyFS rfl,
   (error_discrimination natT badSer).2.1 "b.flow"
     (FS.emptyFS.setFile "b.flow" [1, 2]) [1, 2] "unexpected length"
     (by simp [FS.setFile]) rfl,
   (error_discrimination natT badSer).2.2.1 0 "render failure" rfl,
   (error_discrimination badEncodeT badSer).2.2.2.1 4 "c.flow" SaveEnv.noFault
     FS.emptyFS "cannot encode" rfl rfl,
   (error_discrimination natT badSer).2.2.2.2 4 "d.flow" ⟨some "denied", none⟩
     FS.emptyFS "denied" rfl⟩

/-- C6: when the destination is created successfully but structural encoding
then fails, save returns the encoding error and the filesystem is left
exactly as the create step produced it: the destination holds the empty file
and nothing else changed. -/
theorem save_encode_failure_destination {α : Type} (t : Transform α) (obj : α)
    (p : String) (env : SaveEnv) (fs : FS) (ce : String)
    (hc : env.createErr = none) (he : t.encode (t.before obj) = .error ce) :
    (save t obj p env fs).result = .error (.encoding ce) ∧
    (save t obj p env fs).fs = fs.setFile p [] := by
  constructor <;> simp [save, hc, he]

/-- Witness for C6 at the concrete model badEncodeT. -/
theorem save_encode_failure_destination_witness :
    (save badEncodeT 2 "e.flow" SaveEnv.noFault FS.emptyFS).result
      = .error (.encoding "cannot encode") ∧
    (save badEncodeT 2 "e.flow" SaveEnv.noFault FS.emptyFS).fs
      = FS.emptyFS.setFile "e.flow" [] :=
  save_encode_failure_destination badEncodeT 2 "e.flow" SaveEnv.noFault
    FS.emptyFS "cannot encode" rfl rfl

/-- C7: to_json accepts any serializable value (it takes only the Serialize
bound, not the Transform capability, so no lifecycle hook can run) and
returns either the rendered text or a json-tagged error; moreover its output
is fully determined by the underlying structural rendering, so it involves no
hook or other state. -/
theorem to_json_no_hooks_shape (α : Type) :
    (∀ (s : Serializable α) (v : α),
       (∃ j, to_json s v = .ok j ∧ s.toJson v = .ok j) ∨
       (∃ e, to_json s v = .error (.json e) ∧ s.toJson v = .error e)) ∧
    (∀ (s s2 : Serializable α) (v v2 : α),
       s.toJson v = s2.toJson v2 → to_json s v = to_json s2 v2) := by
  constructor
  · intro s v
    cases hj : s.toJson v with
    | ok j =>
      refine Or.inl ⟨j, ?_, rfl⟩
      simp [to_json, hj]
    | error e =>
      refine Or.inr ⟨e, ?_, rfl⟩
      simp [to_json, hj]
  · intro s s2 v v2 h
    simp [to_json, h]

/-- Witness for C7 at the concrete serializer okSer. -/
theorem to_json_no_hooks_shape_witness :
    ((∃ j, to_json okSer 3 = .ok j ∧ okSer.toJson 3 = .ok j) ∨
       (∃ e, to_json okSer 3 = .error (.json e) ∧ okSer.toJson 3 = .error e)) ∧
    to_json okSer 3 = to_json okSer 3 :=
  ⟨(to_json_no_hooks_shape Nat).1 okSer 3,
   (to_json_no_hooks_shape Nat).2 okSer okSer 3 3 rfl⟩

/-- C8: from_json is a stub: for every input string it returns the unit
value — no model value and no error — and its output does not depend on the
input at all, so it is no round-trip partner to to_json. -/
theorem from_json_stub :
    ∀ (s s2 : String), from_json s = () ∧ from_json s = from_json s2 :=
  fun _ _ => ⟨rfl, rfl⟩

/-- C9: the text export is deterministic: on equal inputs it produces equal
outputs. -/
theorem to_json_deterministic {α : Type} (s : Serializable α) (a b : α)
    (h : a = b) : to_json s a = to_json s b := by
  rw [h]

/-- Witness for C9 at the concrete serializer okSer and value 4. -/
theorem to_json_deterministic_witness :
    to_json okSer 4 = to_json okSer 4 :=
  to_json_deterministic okSer 4 4 rfl

/-- C10: whenever creating the destination succeeds the before hook runs and
the caller's model is left as its before-image even when a later step fails —
save performs no rollback — and concretely an erroring save can leave the
model different from the original. -/
theorem save_mutates_model_no_rollback :
    (∀ (α : Type) (t : Transform α) (obj : α) (p : String) (env : SaveEnv)
       (fs : FS), env.createErr = none →
       (save t obj p env fs).model = t.before obj) ∧
    (∃ e, (save badEncodeT 5 "f.flow" SaveEnv.noFault FS.emptyFS).result
        = .error e ∧
      (save badEncodeT 5 "f.flow" SaveEnv.noFault FS.emptyFS).model ≠ 5) := by
  constructor
  · intro α t obj p env fs hc
    cases he : t.encode (t.before obj) with
    | error e => simp [save, hc, he]
    | ok bs =>
      cases hw : env.writeErr with
      | some en => simp [save, hc, he, hw]
      | none => simp [save, hc, he, hw]
  · exact ⟨.encoding "cannot encode", rfl, by decide⟩

/-- Witness for C10 at the concrete model natT. -/
theorem save_mutates_model_no_rollback_witness :
    (save natT 5 "g.flow" SaveEnv.noFault FS.emptyFS).model = natT.before 5 :=
  save_mutates_model_no_rollback.1 Nat natT 5 "g.flow" SaveEnv.noFault
    FS.emptyFS rfl

end NeuroFlow
